import Mathlib

/-!
Shallow embedding of the gd_ik MoveIt kinematics plugin
(src/src/gd_ik_plugin.cpp) for checking the natural-language
specification against the code.

Real-valued quantities of the C++ code (double) are modelled as rationals
(ℚ); joint vectors are lists of rationals.  Helper functions that the
plugin calls but whose bodies live in headers outside src/
(get_active_variable_indexes, make_is_solution_test_fn, the cost-function
constructors, ...) are modelled from the spec; each such definition says so
in its doc comment.  Everything else is translated directly from
gd_ik_plugin.cpp.
-/

set_option autoImplicit false

namespace GdIk

/-- Joint types of moveit::core::JointModel relevant to the plugin; the
code only discriminates UNKNOWN and FIXED from the rest. -/
inductive JointType where
  | Revolute
  | Prismatic
  | Planar
  | Floating
  | Fixed
  | Unknown
deriving DecidableEq, Repr

/-- Modelled from the spec (§3 Joint): identity and type of one joint of
the robot model, the two attributes the plugin code reads
(getName, getType). -/
structure JointModel where
  name : String
  type : JointType
deriving DecidableEq, Repr

/-- Modelled from the spec (§3): position limits of one variable of the
kinematic model; bounded is false for a joint with unbounded range. -/
structure VariableLimits where
  lo : ℚ
  hi : ℚ
  bounded : Bool
deriving DecidableEq, Repr

/-- Modelled from the spec (§6): a named planning group resolved to its
joint models and end-effector tip link names
(moveit::core::JointModelGroup as used by the plugin). -/
structure JointModelGroup where
  name : String
  jointModels : List JointModel
  endEffectorTips : List String
deriving DecidableEq, Repr

/-- Modelled from the spec (§3 Kinematic Model): the external robot
description object (moveit::core::RobotModel) with the parts the plugin
reads: the planning groups, the ordered joints (one variable per joint),
the per-variable limits, the link names, and the default variable values
used by RobotState::setToDefaultValues. -/
structure RobotModel where
  groups : List JointModelGroup
  joints : List JointModel
  variableLimits : List VariableLimits
  linkNames : List String
  defaultValues : List ℚ

/-- RobotModel::getJointModelGroup — look up a planning group by name. -/
def getJointModelGroup (m : RobotModel) (group_name : String) :
    Option JointModelGroup :=
  m.groups.find? (fun g => g.name == group_name)

/-- Modelled from the spec (§3 Kinematic Model): the internal Robot object
(gd_ik/robot.hpp, not under src/); the claims only use its per-variable
limits. -/
structure Robot where
  limits : List VariableLimits

/-- Modelled from the spec (§4.1): Robot::from builds the internal Robot
from the external robot description (gd_ik/robot.hpp, not under src/). -/
def Robot.from (m : RobotModel) : Robot :=
  ⟨m.variableLimits⟩

/-- Modelled from the spec: the generated parameter struct
(gd_ik_parameters.hpp, not under src/) restricted to the fields
gd_ik_plugin.cpp reads. -/
structure Params where
  position_threshold : ℚ
  rotation_threshold : ℚ
  twist_threshold : ℚ
  center_joints_weight : ℚ
  avoid_joint_limits_weight : ℚ
  minimal_displacement_weight : ℚ
  cost_threshold : ℚ

/-- KinematicsBase::storeValues strips a leading slash from frame names
(documented in the comment at gd_ik_plugin.cpp lines 106-114). -/
def stripSlash (s : String) : String :=
  if s.startsWith "/" then s.drop 1 else s

/-- The joint-name loop of GDIKPlugin::initialize
(gd_ik_plugin.cpp lines 126-133): keep a group joint when its name is not
the base frame and its type is neither UNKNOWN nor FIXED, in order. -/
def computeJointNames (jointModels : List JointModel) (base_frame : String) :
    List String :=
  (jointModels.filter (fun jm =>
    decide (jm.name ≠ base_frame) &&
    decide (jm.type ≠ JointType.Unknown) &&
    decide (jm.type ≠ JointType.Fixed))).map (fun jm => jm.name)

/-- Modelled from the spec (§6): get_link_indexes (gd_ik/robot.hpp, not
under src/) resolves each tip frame name to its index in the model's link
list. -/
def get_link_indexes (m : RobotModel) (tip_frames : List String) :
    List Nat :=
  tip_frames.map (fun t => m.linkNames.indexOf t)

/-- Modelled from the spec (§4.1): get_active_variable_indexes
(gd_ik/robot.hpp, not under src/) computes "the active-variable index set
for a named planning group, computed by excluding joints that are fixed,
of unknown type, or that represent the base frame itself".  One variable
per joint; the C++ signature also receives the tip link indexes, whose
role the spec does not describe. -/
def get_active_variable_indexes (m : RobotModel) (jmg : JointModelGroup)
    (base_frame : String) : List Nat :=
  (List.range m.joints.length).filter (fun i =>
    match m.joints.get? i with
    | some jm =>
        decide (jm ∈ jmg.jointModels) &&
        decide (jm.name ≠ base_frame) &&
        decide (jm.type ≠ JointType.Unknown) &&
        decide (jm.type ≠ JointType.Fixed)
    | none => false)

/-- Modelled from the spec (§3 Minimal Displacement Factor): one
non-negative weight per active variable, derived from the joint's position
range, narrower range giving a larger factor; a joint with unbounded or
empty range contributes zero (gd_ik/algorithm.hpp, not under src/). -/
def get_minimal_displacement_factors (active_variable_indexes : List Nat)
    (robot : Robot) : List ℚ :=
  active_variable_indexes.map (fun i =>
    match robot.limits.get? i with
    | some v => if v.bounded && decide (v.lo < v.hi) then 1 / (v.hi - v.lo) else 0
    | none => 0)

/-- The member state a successfully initialized GDIKPlugin holds
(gd_ik_plugin.cpp lines 22-32 plus the KinematicsBase stored values the
code reads). -/
structure PluginState where
  params : Params
  jmg : JointModelGroup
  joint_names : List String
  link_names : List String
  robot : Robot
  tip_link_indexes : List Nat
  active_variable_indexes : List Nat
  minimal_displacement_factors : List ℚ
  robot_model : RobotModel
  group_name : String
  base_frame : String
  tip_frames : List String

/-- Result of GDIKPlugin::initialize: the boolean the method returns, and
the member state it leaves behind (none when it bails out before setting
up the IK internals, on a missing planning group). -/
structure InitResult where
  ok : Bool
  state : Option PluginState

/-- GDIKPlugin::initialize (gd_ik_plugin.cpp lines 96-158).  Parameter
loading through ParamListener is adaptation code; the loaded Params are
taken as an argument.  Mirrors the code: store values (frame names with
leading slash stripped), look up the planning group and fail when absent,
build the joint-name list, replace the tip frames by the group's
end-effector tips when non-empty, set link_names to the tip frames, build
the Robot and the index/factor vectors — and then return false on this
path too (the literal `return false;` at line 157). -/
def initializePlugin (params : Params) (robot_model : RobotModel)
    (group_name : String) (base_frame : String)
    (tip_frames : List String) : InitResult :=
  let base_frame' := stripSlash base_frame
  let stored_tip_frames := tip_frames.map stripSlash
  match getJointModelGroup robot_model group_name with
  | none => ⟨false, none⟩
  | some jmg =>
      let joint_names := computeJointNames jmg.jointModels base_frame'
      let tip_frames' :=
        if jmg.endEffectorTips.isEmpty then stored_tip_frames
        else jmg.endEffectorTips
      let link_names := tip_frames'
      let robot := Robot.from robot_model
      let tip_link_indexes := get_link_indexes robot_model tip_frames'
      let active_variable_indexes :=
        get_active_variable_indexes robot_model jmg base_frame'
      let minimal_displacement_factors :=
        get_minimal_displacement_factors active_variable_indexes robot
      ⟨false, some ⟨params, jmg, joint_names, link_names, robot,
        tip_link_indexes, active_variable_indexes,
        minimal_displacement_factors, robot_model, group_name,
        base_frame', tip_frames'⟩⟩

/-- GDIKPlugin::getJointNames (gd_ik_plugin.cpp lines 160-162). -/
def getJointNames (st : PluginState) : List String :=
  st.joint_names

/-- GDIKPlugin::getLinkNames (gd_ik_plugin.cpp lines 164-166). -/
def getLinkNames (st : PluginState) : List String :=
  st.link_names

/-- Modelled from the spec (§6): a target pose
(geometry_msgs::msg::Pose), position plus orientation quaternion. -/
structure Pose where
  px : ℚ
  py : ℚ
  pz : ℚ
  qx : ℚ
  qy : ℚ
  qz : ℚ
  qw : ℚ
deriving DecidableEq, Repr

/-- Modelled from the spec (§4.2): a Frame is a pose expressed in base
coordinates (gd_ik/frame.hpp, not under src/). -/
def Frame := Pose
deriving DecidableEq, Repr

/-- Modelled from the spec (§5): the per-iteration solution callback
(kinematics::KinematicsBase::IKCallbackFn); the code never invokes it, it
is only forwarded, so its exact signature is irrelevant here. -/
def IKCallbackFn := Pose → List ℚ → Int

/-- Modelled from the spec (§4.3 External pose-cost): the caller-supplied
cost function (kinematics::KinematicsBase::IKCostFn); the plugin never
invokes it, it is only captured by make_ik_cost_fn, so its exact signature
is irrelevant here. -/
def IKCostFn := Pose → List ℚ → ℚ

/-- Modelled from the spec: kinematics::KinematicsQueryOptions, forwarded
unread by every overload. -/
structure KinematicsQueryOptions where
deriving DecidableEq, Repr

/-- Modelled from the spec (§6): a RobotState is its full variable vector,
one entry per model variable. -/
def RobotState := List ℚ
deriving DecidableEq, Repr

/-- Modelled from the spec: get_variables (gd_ik/robot.hpp, not under
src/) reads the full variable vector out of a robot state. -/
def get_variables (s : RobotState) : List ℚ :=
  s

/-- Modelled from the spec (§1): transform_poses_to_frames
(gd_ik/frame.hpp, not under src/) converts each target pose to a frame in
base-frame coordinates; the coordinate transform itself is adaptation
code declared out of scope by §1, so frames here carry the poses. -/
def transform_poses_to_frames (_context_state : RobotState)
    (ik_poses : List Pose) (_base_frame : String) : List Frame :=
  ik_poses

/-- Modelled from the spec (§4.2): one Frame Test per target frame, the
target pose tagged with the global position / rotation / twist tolerances
(gd_ik/frame.hpp, not under src/).  The pass/fail geometry is evaluated
outside the plugin; the abstract Solution Test layer below treats a frame
test as a predicate. -/
structure FrameTestData where
  frame : Frame
  position_threshold : ℚ
  rotation_threshold : ℚ
  twist_threshold : ℚ

/-- Modelled from the spec (§4.2): make_frame_tests builds the Frame Test
list from the goal frames and the three global tolerances
(gd_ik/frame.hpp, not under src/). -/
def make_frame_tests (frames : List Frame) (position_threshold : ℚ)
    (rotation_threshold : ℚ) (twist_threshold : ℚ) : List FrameTestData :=
  frames.map (fun f => ⟨f, position_threshold, rotation_threshold,
    twist_threshold⟩)

/-- Modelled from the spec (§3): select maps a full vector to the active
sub-vector through the active-variable index mapping
(gd_ik/algorithm.hpp, not under src/). -/
def select (values : List ℚ) (indexes : List Nat) : List ℚ :=
  indexes.map (fun i => values.getD i 0)

/-- Modelled from the spec (§4.3): the cost-function constructors of
gd_ik/goal.hpp (not under src/) each return a closure capturing their
arguments; a closure is represented here as tagged data, one constructor
per C++ constructor, carrying exactly the captured arguments. -/
inductive CostFnDesc where
  | centerJoints (robot : Robot) (active_variable_indexes : List Nat)
      (minimal_displacement_factors : List ℚ)
  | avoidJointLimits (robot : Robot) (active_variable_indexes : List Nat)
      (minimal_displacement_factors : List ℚ)
  | minimalDisplacement (active_initial_guess : List ℚ)
      (minimal_displacement_factors : List ℚ)
  | ikCost (pose : Pose) (cost_function : IKCostFn)
      (robot_model : RobotModel) (jmg : JointModelGroup)
      (initial_guess : List ℚ)

/-- CostFnDesc.isCenterJoints recognises the center-joints closure. -/
def CostFnDesc.isCenterJoints : CostFnDesc → Bool
  | .centerJoints _ _ _ => true
  | _ => false

/-- CostFnDesc.isAvoidJointLimits recognises the avoid-joint-limits
closure. -/
def CostFnDesc.isAvoidJointLimits : CostFnDesc → Bool
  | .avoidJointLimits _ _ _ => true
  | _ => false

/-- CostFnDesc.isMinimalDisplacement recognises the minimal-displacement
closure. -/
def CostFnDesc.isMinimalDisplacement : CostFnDesc → Bool
  | .minimalDisplacement _ _ => true
  | _ => false

/-- CostFnDesc.isIkCost recognises an external pose-cost closure. -/
def CostFnDesc.isIkCost : CostFnDesc → Bool
  | .ikCost _ _ _ _ _ => true
  | _ => false

/-- Modelled from the spec (§3 Goal): a (cost function, weight) pair
(gd_ik/goal.hpp, not under src/). -/
structure Goal where
  cost_fn : CostFnDesc
  weight : ℚ

/-- Modelled from the spec (§4.3): make_center_joints_cost_fn returns the
center-joints cost closure over its captured arguments. -/
def make_center_joints_cost_fn (robot : Robot)
    (active_variable_indexes : List Nat)
    (minimal_displacement_factors : List ℚ) : CostFnDesc :=
  .centerJoints robot active_variable_indexes minimal_displacement_factors

/-- Modelled from the spec (§4.3): make_avoid_joint_limits_cost_fn returns
the avoid-joint-limits cost closure over its captured arguments. -/
def make_avoid_joint_limits_cost_fn (robot : Robot)
    (active_variable_indexes : List Nat)
    (minimal_displacement_factors : List ℚ) : CostFnDesc :=
  .avoidJointLimits robot active_variable_indexes
    minimal_displacement_factors

/-- Modelled from the spec (§4.3): make_minimal_displacement_cost_fn
returns the minimal-displacement cost closure over its captured
arguments. -/
def make_minimal_displacement_cost_fn (active_initial_guess : List ℚ)
    (minimal_displacement_factors : List ℚ) : CostFnDesc :=
  .minimalDisplacement active_initial_guess minimal_displacement_factors

/-- Modelled from the spec (§4.3): make_ik_cost_fn wraps one caller
cost function for one target pose into a goal cost closure. -/
def make_ik_cost_fn (pose : Pose) (cost_function : IKCostFn)
    (robot_model : RobotModel) (jmg : JointModelGroup)
    (initial_guess : List ℚ) : CostFnDesc :=
  .ikCost pose cost_function robot_model jmg initial_guess

/-- The goal-construction block of GDIKPlugin::searchPositionIK
(gd_ik_plugin.cpp lines 61-87): push the three built-in goals, each
guarded by its weight being strictly positive, then — when a caller cost
function is present — one weight-1.0 ik-cost goal per target pose, in
pose order. -/
def search_goals (st : PluginState) (ik_poses : List Pose)
    (cost_function : Option IKCostFn) (active_initial_guess : List ℚ)
    (initial_guess : List ℚ) : List Goal :=
  (if st.params.center_joints_weight > 0 then
    [⟨make_center_joints_cost_fn st.robot st.active_variable_indexes
        st.minimal_displacement_factors, st.params.center_joints_weight⟩]
   else []) ++
  (if st.params.avoid_joint_limits_weight > 0 then
    [⟨make_avoid_joint_limits_cost_fn st.robot st.active_variable_indexes
        st.minimal_displacement_factors,
      st.params.avoid_joint_limits_weight⟩]
   else []) ++
  (if st.params.minimal_displacement_weight > 0 then
    [⟨make_minimal_displacement_cost_fn active_initial_guess
        st.minimal_displacement_factors,
      st.params.minimal_displacement_weight⟩]
   else []) ++
  (match cost_function with
   | some f => ik_poses.map (fun pose =>
       ⟨make_ik_cost_fn pose f st.robot_model st.jmg initial_guess, 1⟩)
   | none => [])

/-- Everything one call of the full GDIKPlugin::searchPositionIK overload
computes: the local values it constructs (gd_ik_plugin.cpp lines 44-90)
and what reaches the caller — the returned boolean, the by-reference
solution vector and the by-reference error code. -/
structure SearchTrace where
  goal_frames : List Frame
  frame_tests : List FrameTestData
  initial_guess : List ℚ
  active_initial_guess : List ℚ
  goals : List Goal
  result : Bool
  solution_out : List ℚ
  error_code_out : Int

/-- GDIKPlugin::searchPositionIK, full overload (gd_ik_plugin.cpp lines
35-93).  When no context state is given a fresh state at the model's
default values is used (lines 45-50).  The code then builds the goal
frames, frame tests, initial guess, active initial guess and goal list,
builds the is-solution-test closure from the frame tests, goals and
params_.cost_threshold (line 89, modelled separately below as
make_is_solution_test_fn; the closure is unused so its construction does
not affect any output), and returns false having written neither solution
nor error_code. -/
def searchPositionIK (st : PluginState) (ik_poses : List Pose)
    (_ik_seed_state : List ℚ) (_timeout : ℚ)
    (_consistency_limits : List ℚ) (solution : List ℚ)
    (_solution_callback : Option IKCallbackFn)
    (cost_function : Option IKCostFn) (error_code : Int)
    (_options : KinematicsQueryOptions)
    (context_state : Option RobotState) : SearchTrace :=
  let cs : RobotState := context_state.getD st.robot_model.defaultValues
  let goal_frames := transform_poses_to_frames cs ik_poses st.base_frame
  let frame_tests := make_frame_tests goal_frames
    st.params.position_threshold st.params.rotation_threshold
    st.params.twist_threshold
  let initial_guess := get_variables cs
  let active_initial_guess := select initial_guess
    st.active_variable_indexes
  let goals := search_goals st ik_poses cost_function active_initial_guess
    initial_guess
  ⟨goal_frames, frame_tests, initial_guess, active_initial_guess, goals,
    false, solution, error_code⟩

/-- GDIKPlugin::searchPositionIK overload without a cost function
(gd_ik_plugin.cpp lines 234-246): delegates to the full overload with an
empty IKCostFn. -/
def searchPositionIK_noCostFn (st : PluginState) (ik_poses : List Pose)
    (ik_seed_state : List ℚ) (timeout : ℚ) (consistency_limits : List ℚ)
    (solution : List ℚ) (solution_callback : Option IKCallbackFn)
    (error_code : Int) (options : KinematicsQueryOptions)
    (context_state : Option RobotState) : SearchTrace :=
  searchPositionIK st ik_poses ik_seed_state timeout consistency_limits
    solution solution_callback none error_code options context_state

/-- Single-pose GDIKPlugin::searchPositionIK overload (gd_ik_plugin.cpp
lines 184-194): singleton pose list, empty consistency limits, empty
callback. -/
def searchPositionIK_pose (st : PluginState) (ik_pose : Pose)
    (ik_seed_state : List ℚ) (timeout : ℚ) (solution : List ℚ)
    (error_code : Int) (options : KinematicsQueryOptions) : SearchTrace :=
  searchPositionIK_noCostFn st [ik_pose] ik_seed_state timeout []
    solution none error_code options none

/-- Single-pose GDIKPlugin::searchPositionIK overload with consistency
limits (gd_ik_plugin.cpp lines 196-207). -/
def searchPositionIK_poseLimits (st : PluginState) (ik_pose : Pose)
    (ik_seed_state : List ℚ) (timeout : ℚ) (consistency_limits : List ℚ)
    (solution : List ℚ) (error_code : Int)
    (options : KinematicsQueryOptions) : SearchTrace :=
  searchPositionIK_noCostFn st [ik_pose] ik_seed_state timeout
    consistency_limits solution none error_code options none

/-- Single-pose GDIKPlugin::searchPositionIK overload with a solution
callback (gd_ik_plugin.cpp lines 209-219). -/
def searchPositionIK_poseCallback (st : PluginState) (ik_pose : Pose)
    (ik_seed_state : List ℚ) (timeout : ℚ) (solution : List ℚ)
    (solution_callback : Option IKCallbackFn) (error_code : Int)
    (options : KinematicsQueryOptions) : SearchTrace :=
  searchPositionIK_noCostFn st [ik_pose] ik_seed_state timeout []
    solution solution_callback error_code options none

/-- Single-pose GDIKPlugin::searchPositionIK overload with consistency
limits and a solution callback (gd_ik_plugin.cpp lines 221-232). -/
def searchPositionIK_poseLimitsCallback (st : PluginState) (ik_pose : Pose)
    (ik_seed_state : List ℚ) (timeout : ℚ) (consistency_limits : List ℚ)
    (solution : List ℚ) (solution_callback : Option IKCallbackFn)
    (error_code : Int) (options : KinematicsQueryOptions) : SearchTrace :=
  searchPositionIK_noCostFn st [ik_pose] ik_seed_state timeout
    consistency_limits solution solution_callback error_code options none

/-- GDIKPlugin::getPositionFK (gd_ik_plugin.cpp lines 168-173): returns
false without touching the by-reference poses output. -/
def getPositionFK (_st : PluginState) (_link_names : List String)
    (_joint_angles : List ℚ) (poses : List Pose) : Bool × List Pose :=
  (false, poses)

/-- GDIKPlugin::getPositionIK (gd_ik_plugin.cpp lines 175-182): returns
false without touching the by-reference solution or error code. -/
def getPositionIK (_st : PluginState) (_ik_pose : Pose)
    (_ik_seed_state : List ℚ) (solution : List ℚ) (error_code : Int)
    (_options : KinematicsQueryOptions) : Bool × List ℚ × Int :=
  (false, solution, error_code)

/-- Modelled from the spec (§4.2/§4.4): as consumed by the Solution Test,
a Frame Test is a pass/fail predicate on a candidate active joint
vector. -/
def FrameTestFn := List ℚ → Bool

/-- Modelled from the spec (§4.4): a goal as consumed by the Solution
Test — an evaluable cost over the candidate, paired with its weight. -/
structure GoalFn where
  cost_fn : List ℚ → ℚ
  weight : ℚ

/-- Modelled from the spec (§4.3): the combined objective
Σ (weight_i × cost_i(candidate)). -/
def sum_of_goal_costs (goals : List GoalFn) (candidate : List ℚ) : ℚ :=
  (goals.map (fun g => g.weight * g.cost_fn candidate)).sum

/-- Modelled from the spec (§4.4): make_is_solution_test_fn
(gd_ik/goal.hpp, not under src/) — accept(candidate) = every Frame Test
passes AND the weighted sum of goal costs is at most cost_threshold. -/
def make_is_solution_test_fn (frame_tests : List FrameTestFn)
    (goals : List GoalFn) (cost_threshold : ℚ) : List ℚ → Bool :=
  fun candidate =>
    frame_tests.all (fun t => t candidate) &&
    decide (sum_of_goal_costs goals candidate ≤ cost_threshold)

/-- Concrete one-revolute-joint robot description used to evaluate the
definitions on closed inputs: group "arm" holds a revolute joint and a
fixed joint. -/
def exampleJointA : JointModel := ⟨"joint_a", JointType.Revolute⟩

/-- A fixed joint of the concrete example model. -/
def exampleJointF : JointModel := ⟨"joint_f", JointType.Fixed⟩

/-- The planning group "arm" of the concrete example model. -/
def exampleGroup : JointModelGroup :=
  ⟨"arm", [exampleJointA, exampleJointF], ["tip"]⟩

/-- The concrete example robot model: one group, two joints, links
"base" and "tip". -/
def exampleModel : RobotModel :=
  ⟨[exampleGroup], [exampleJointA, exampleJointF],
   [⟨-1, 1, true⟩, ⟨0, 0, false⟩], ["base", "tip"], [0, 0]⟩

/-- Concrete parameters with every built-in goal weight positive. -/
def exampleParams : Params :=
  ⟨1/100, 1/100, 1/100, 1, 1, 1, 1/1000⟩

/-- The identity pose used as a concrete target. -/
def examplePose : Pose := ⟨0, 0, 0, 0, 0, 0, 1⟩

/-- Concrete plugin member state for the example model: active variable 0
(the revolute joint), tip link 1. -/
def exampleState : PluginState :=
  ⟨exampleParams, exampleGroup, ["joint_a"], ["tip"],
   ⟨[⟨-1, 1, true⟩, ⟨0, 0, false⟩]⟩, [1], [0], [1/2], exampleModel,
   "arm", "base", ["tip"]⟩

/-- A concrete caller-supplied cost function, used to evaluate the goal
construction on closed inputs. -/
def exampleCostFn : IKCostFn := fun _ _ => 0

/-- C1: the claim says searchPositionIK returns success with a valid
solution or a typed failure, and success for some reachable input.  The
code (gd_ik_plugin.cpp line 92) instead returns false for every input,
never writes error_code, and never returns success: for all inputs the
result is false and the error code is left exactly as passed in. -/
theorem search_returns_false_untyped (st : PluginState)
    (ik_poses : List Pose) (ik_seed_state : List ℚ) (timeout : ℚ)
    (consistency_limits : List ℚ) (solution : List ℚ)
    (solution_callback : Option IKCallbackFn)
    (cost_function : Option IKCostFn) (error_code : Int)
    (options : KinematicsQueryOptions)
    (context_state : Option RobotState) :
    (searchPositionIK st ik_poses ik_seed_state timeout
      consistency_limits solution solution_callback cost_function
      error_code options context_state).result = false ∧
    (searchPositionIK st ik_poses ik_seed_state timeout
      consistency_limits solution solution_callback cost_function
      error_code options context_state).error_code_out = error_code :=
  ⟨rfl, rfl⟩

/-- C2 counterexample: with seed vector [1, 0], context state [2, 0] and
active index set [0], the active initial guess the search builds is [2],
taken from the context state — not [1], the selection from ik_seed_state.
The claim that the active seed is derived from ik_seed_state is false on
the code (gd_ik_plugin.cpp lines 57-59 read the context state, and
ik_seed_state is never read). -/
theorem active_seed_not_from_ik_seed_state :
    (searchPositionIK exampleState [examplePose] [1, 0] 1 [] [] none none
      1 ⟨⟩ (some ([2, 0] : RobotState))).active_initial_guess ≠
    select [1, 0] exampleState.active_variable_indexes := by
  decide

/-- C2 amended: the active initial guess of every search call is obtained
by selecting, at the active-variable indexes, the full variable vector of
the context robot state (the model's default values when no context state
is passed); ik_seed_state does not enter it. -/
theorem active_seed_from_context_state (st : PluginState)
    (ik_poses : List Pose) (ik_seed_state : List ℚ) (timeout : ℚ)
    (consistency_limits : List ℚ) (solution : List ℚ)
    (solution_callback : Option IKCallbackFn)
    (cost_function : Option IKCostFn) (error_code : Int)
    (options : KinematicsQueryOptions)
    (context_state : Option RobotState) :
    (searchPositionIK st ik_poses ik_seed_state timeout
      consistency_limits solution solution_callback cost_function
      error_code options context_state).active_initial_guess =
    select (get_variables (context_state.getD st.robot_model.defaultValues))
      st.active_variable_indexes :=
  rfl

/-- C3: the claim says initialize reports success when the planning group
is present.  The code reports failure either way: on the example model,
whose group "arm" exists (getJointModelGroup finds it), initialize still
returns false (the `return false;` at gd_ik_plugin.cpp line 157), and on
a missing group it returns false as the claim says. -/
theorem initializePlugin_always_reports_failure :
    (initializePlugin exampleParams exampleModel "arm" "base"
      ["tip"]).ok = false ∧
    (getJointModelGroup exampleModel "arm").isSome = true ∧
    (initializePlugin exampleParams exampleModel "no_such_group" "base"
      ["tip"]).ok = false := by
  refine ⟨rfl, ?_, rfl⟩
  decide

/-- C8: when a search call fails, the caller's solution vector is left
unchanged — the code never writes to it (indeed it never writes to it on
any path). -/
theorem failure_leaves_solution_unchanged (st : PluginState)
    (ik_poses : List Pose) (ik_seed_state : List ℚ) (timeout : ℚ)
    (consistency_limits : List ℚ) (solution : List ℚ)
    (solution_callback : Option IKCallbackFn)
    (cost_function : Option IKCostFn) (error_code : Int)
    (options : KinematicsQueryOptions)
    (context_state : Option RobotState)
    (hfail : (searchPositionIK st ik_poses ik_seed_state timeout
      consistency_limits solution solution_callback cost_function
      error_code options context_state).result = false) :
    (searchPositionIK st ik_poses ik_seed_state timeout
      consistency_limits solution solution_callback cost_function
      error_code options context_state).solution_out = solution :=
  rfl

/-- C8 witness: a concrete failing call leaves the concrete solution
vector [5, 6] untouched. -/
theorem failure_leaves_solution_unchanged_witness :
    (searchPositionIK exampleState [examplePose] [0, 0] 1 [] [5, 6] none
      none 1 ⟨⟩ none).result = false ∧
    (searchPositionIK exampleState [examplePose] [0, 0] 1 [] [5, 6] none
      none 1 ⟨⟩ none).solution_out = [5, 6] :=
  ⟨rfl, failure_leaves_solution_unchanged exampleState [examplePose]
    [0, 0] 1 [] [5, 6] none none 1 ⟨⟩ none rfl⟩

/-- C9: every delegating searchPositionIK overload equals the full
overload applied to the singleton pose list, with empty consistency
limits and/or an empty callback substituted where the overload lacks the
parameter, and the multi-pose overload without a cost function equals the
full overload with an empty cost function. -/
theorem overloads_delegate_to_full_search (st : PluginState) (pose : Pose)
    (poses : List Pose) (seed : List ℚ) (timeout : ℚ) (limits : List ℚ)
    (solution : List ℚ) (cb : Option IKCallbackFn) (error_code : Int)
    (options : KinematicsQueryOptions) (ctx : Option RobotState) :
    searchPositionIK_pose st pose seed timeout solution error_code
      options =
      searchPositionIK st [pose] seed timeout [] solution none none
        error_code options none ∧
    searchPositionIK_poseLimits st pose seed timeout limits solution
      error_code options =
      searchPositionIK st [pose] seed timeout limits solution none none
        error_code options none ∧
    searchPositionIK_poseCallback st pose seed timeout solution cb
      error_code options =
      searchPositionIK st [pose] seed timeout [] solution cb none
        error_code options none ∧
    searchPositionIK_poseLimitsCallback st pose seed timeout limits
      solution cb error_code options =
      searchPositionIK st [pose] seed timeout limits solution cb none
        error_code options none ∧
    searchPositionIK_noCostFn st poses seed timeout limits solution cb
      error_code options ctx =
      searchPositionIK st poses seed timeout limits solution cb none
        error_code options ctx :=
  ⟨rfl, rfl, rfl, rfl, rfl⟩

/-- C4: each built-in goal (center-joints, avoid-joint-limits,
minimal-displacement) appears in the constructed goal list exactly when
its configured weight is strictly positive; with weight 0 no goal for it
is pushed at all, so its cost function cannot appear in the weighted sum
(gd_ik_plugin.cpp lines 62-80). -/
theorem builtin_goal_in_list_iff_positive_weight (st : PluginState)
    (ik_poses : List Pose) (cost_function : Option IKCostFn)
    (active_initial_guess : List ℚ) (initial_guess : List ℚ) :
    ((search_goals st ik_poses cost_function active_initial_guess
        initial_guess).any (fun g => g.cost_fn.isCenterJoints) = true ↔
      0 < st.params.center_joints_weight) ∧
    ((search_goals st ik_poses cost_function active_initial_guess
        initial_guess).any (fun g => g.cost_fn.isAvoidJointLimits) = true ↔
      0 < st.params.avoid_joint_limits_weight) ∧
    ((search_goals st ik_poses cost_function active_initial_guess
        initial_guess).any (fun g => g.cost_fn.isMinimalDisplacement) = true ↔
      0 < st.params.minimal_displacement_weight) := by
  refine ⟨?_, ?_, ?_⟩ <;>
  · rcases cost_function with _ | f <;>
      simp only [search_goals] <;>
      split_ifs <;>
      simp_all [List.any_append, List.any_map, Function.comp,
        make_center_joints_cost_fn, make_avoid_joint_limits_cost_fn,
        make_minimal_displacement_cost_fn, make_ik_cost_fn,
        CostFnDesc.isCenterJoints, CostFnDesc.isAvoidJointLimits,
        CostFnDesc.isMinimalDisplacement, not_lt]

/-- Helper: filtering a list of external-pose-cost goals for ik-cost
goals keeps all of them. -/
theorem filter_isIkCost_map (f : IKCostFn) (rm : RobotModel)
    (jmg : JointModelGroup) (ig : List ℚ) (l : List Pose) :
    (l.map (fun pose =>
        (⟨make_ik_cost_fn pose f rm jmg ig, 1⟩ : Goal))).filter
        (fun g => g.cost_fn.isIkCost) =
      l.map (fun pose => ⟨make_ik_cost_fn pose f rm jmg ig, 1⟩) := by
  induction l with
  | nil => rfl
  | cons p l ih => simp [make_ik_cost_fn, CostFnDesc.isIkCost, ih]

/-- C7: when a caller cost function is supplied, the ik-cost goals of the
constructed goal list are exactly one weight-1.0 goal per target pose, in
pose order (so n poses give n weight-1 goals); when no cost function is
supplied, no ik-cost goal is added (gd_ik_plugin.cpp lines 81-87). -/
theorem ik_cost_goal_one_per_pose (st : PluginState)
    (ik_poses : List Pose) (active_initial_guess : List ℚ)
    (initial_guess : List ℚ) :
    (∀ f : IKCostFn,
      (search_goals st ik_poses (some f) active_initial_guess
          initial_guess).filter (fun g => g.cost_fn.isIkCost) =
        ik_poses.map (fun pose =>
          ⟨make_ik_cost_fn pose f st.robot_model st.jmg initial_guess,
            1⟩) ∧
      ((search_goals st ik_poses (some f) active_initial_guess
          initial_guess).filter
          (fun g => g.cost_fn.isIkCost)).length = ik_poses.length) ∧
    (search_goals st ik_poses none active_initial_guess
        initial_guess).filter (fun g => g.cost_fn.isIkCost) = [] := by
  have hsome : ∀ f : IKCostFn,
      (search_goals st ik_poses (some f) active_initial_guess
          initial_guess).filter (fun g => g.cost_fn.isIkCost) =
        ik_poses.map (fun pose =>
          ⟨make_ik_cost_fn pose f st.robot_model st.jmg initial_guess,
            1⟩) := by
    intro f
    simp only [search_goals]
    split_ifs <;>
      simp [List.filter_append, make_center_joints_cost_fn,
        make_avoid_joint_limits_cost_fn,
        make_minimal_displacement_cost_fn, make_ik_cost_fn,
        CostFnDesc.isIkCost, filter_isIkCost_map]
  refine ⟨fun f => ⟨hsome f, by rw [hsome f, List.length_map]⟩, ?_⟩
  simp only [search_goals]
  split_ifs <;>
    simp [List.filter_append, make_center_joints_cost_fn,
      make_avoid_joint_limits_cost_fn,
      make_minimal_displacement_cost_fn, CostFnDesc.isIkCost]

/-- C6: the joint-name list built at initialization contains exactly the
names of group joints that are not the base frame, not of unknown type
and not fixed (gd_ik_plugin.cpp lines 126-133); and an index is in the
active-variable index set exactly when its joint is a group joint that is
not the base frame, not of unknown type and not fixed
(get_active_variable_indexes, modelled from the spec). -/
theorem joint_names_active_indexes_characterization
    (jms : List JointModel) (bf : String) (n : String) (m : RobotModel)
    (jmg : JointModelGroup) (i : Nat) :
    (n ∈ computeJointNames jms bf ↔
      ∃ jm ∈ jms, jm.name = n ∧ jm.name ≠ bf ∧
        jm.type ≠ JointType.Unknown ∧ jm.type ≠ JointType.Fixed) ∧
    (i ∈ get_active_variable_indexes m jmg bf ↔
      ∃ jm, m.joints.get? i = some jm ∧ jm ∈ jmg.jointModels ∧
        jm.name ≠ bf ∧ jm.type ≠ JointType.Unknown ∧
        jm.type ≠ JointType.Fixed) := by
  constructor
  · constructor
    · intro hmem
      simp only [computeJointNames, List.mem_map] at hmem
      obtain ⟨jm, hf, rfl⟩ := hmem
      rw [List.mem_filter] at hf
      obtain ⟨hmem', hp⟩ := hf
      simp only [Bool.and_eq_true, decide_eq_true_iff] at hp
      exact ⟨jm, hmem', rfl, hp.1.1, hp.1.2, hp.2⟩
    · rintro ⟨jm, hmem, rfl, h1, h2, h3⟩
      simp only [computeJointNames, List.mem_map]
      refine ⟨jm, ?_, rfl⟩
      rw [List.mem_filter]
      exact ⟨hmem, by simp [h1, h2, h3]⟩
  · simp only [get_active_variable_indexes, List.mem_filter,
      List.mem_range]
    cases hget : m.joints.get? i with
    | none => simp [hget]
    | some jm =>
        obtain ⟨hlt, -⟩ := List.get?_eq_some.mp hget
        simp [hget, hlt, Bool.and_eq_true, decide_eq_true_iff,
          and_assoc]

/-- C5: the Solution Test accepts a candidate exactly when every Frame
Test passes and the weighted sum of goal costs is at most cost_threshold;
all frame tests passing with cost above threshold is rejected, and cost
under threshold with some frame test failing is rejected. -/
theorem is_solution_test_conjunction (frame_tests : List FrameTestFn)
    (goals : List GoalFn) (cost_threshold : ℚ) (candidate : List ℚ) :
    (make_is_solution_test_fn frame_tests goals cost_threshold candidate
        = true ↔
      ((∀ t ∈ frame_tests, t candidate = true) ∧
        sum_of_goal_costs goals candidate ≤ cost_threshold)) ∧
    ((∀ t ∈ frame_tests, t candidate = true) →
      cost_threshold < sum_of_goal_costs goals candidate →
      make_is_solution_test_fn frame_tests goals cost_threshold candidate
        = false) ∧
    (sum_of_goal_costs goals candidate ≤ cost_threshold →
      (∃ t ∈ frame_tests, t candidate = false) →
      make_is_solution_test_fn frame_tests goals cost_threshold candidate
        = false) := by
  refine ⟨?_, ?_, ?_⟩
  · simp [make_is_solution_test_fn, List.all_eq_true]
  · intro hall hlt
    have h1 : decide (sum_of_goal_costs goals candidate ≤
        cost_threshold) = false := by
      simp [not_le.mpr hlt]
    simp [make_is_solution_test_fn, h1]
  · intro hle hex
    obtain ⟨t, htmem, htf⟩ := hex
    cases hb : frame_tests.all (fun s => s candidate) with
    | false => simp [make_is_solution_test_fn, hb]
    | true =>
        rw [List.all_eq_true] at hb
        have hcontra := hb t htmem
        rw [htf] at hcontra
        exact absurd hcontra (by simp)

/-- C5 witness: the Solution Test conjunction evaluated on a concrete
frame-test list, goal list, threshold and candidate. -/
theorem is_solution_test_conjunction_witness :
    make_is_solution_test_fn [fun c => c.length == 1]
        [⟨fun _ => 1, 2⟩] 3 [0] = true ↔
      ((∀ t ∈ [fun c : List ℚ => c.length == 1], t [0] = true) ∧
        sum_of_goal_costs [⟨fun _ => 1, 2⟩] [0] ≤ 3) :=
  (is_solution_test_conjunction [fun c => c.length == 1]
    [⟨fun _ => 1, 2⟩] 3 [0]).1

/-- C10: getPositionFK and getPositionIK return false on every input and
leave their by-reference outputs untouched. -/
theorem position_fk_ik_unsupported (st : PluginState)
    (link_names : List String) (joint_angles : List ℚ)
    (poses : List Pose) (ik_pose : Pose) (ik_seed_state : List ℚ)
    (solution : List ℚ) (error_code : Int)
    (options : KinematicsQueryOptions) :
    getPositionFK st link_names joint_angles poses = (false, poses) ∧
    getPositionIK st ik_pose ik_seed_state solution error_code options =
      (false, solution, error_code) :=
  ⟨rfl, rfl⟩

/-- C4 witness: on the example state, whose three built-in weights are
all 1, each built-in goal is present exactly as its weight is
positive. -/
theorem builtin_goal_in_list_iff_positive_weight_witness :
    ((search_goals exampleState [examplePose] none [0] [0, 0]).any
        (fun g => g.cost_fn.isCenterJoints) = true ↔
      0 < exampleState.params.center_joints_weight) ∧
    ((search_goals exampleState [examplePose] none [0] [0, 0]).any
        (fun g => g.cost_fn.isAvoidJointLimits) = true ↔
      0 < exampleState.params.avoid_joint_limits_weight) ∧
    ((search_goals exampleState [examplePose] none [0] [0, 0]).any
        (fun g => g.cost_fn.isMinimalDisplacement) = true ↔
      0 < exampleState.params.minimal_displacement_weight) :=
  builtin_goal_in_list_iff_positive_weight exampleState [examplePose]
    none [0] [0, 0]

/-- C7 witness: on the example state with one pose, supplying a cost
function adds exactly the one weight-1 ik-cost goal and supplying none
adds no ik-cost goal. -/
theorem ik_cost_goal_one_per_pose_witness :
    (search_goals exampleState [examplePose] (some exampleCostFn) [0]
        [0, 0]).filter (fun g => g.cost_fn.isIkCost) =
      [examplePose].map (fun pose =>
        ⟨make_ik_cost_fn pose exampleCostFn exampleState.robot_model
          exampleState.jmg [0, 0], 1⟩) ∧
    (search_goals exampleState [examplePose] none [0] [0, 0]).filter
      (fun g => g.cost_fn.isIkCost) = [] :=
  ⟨((ik_cost_goal_one_per_pose exampleState [examplePose] [0] [0, 0]).1
      exampleCostFn).1,
    (ik_cost_goal_one_per_pose exampleState [examplePose] [0] [0, 0]).2⟩

/-- C6 witness: on the example model, "joint_a" is in the joint-name list
of group "arm" with base frame "base", and index 0 is in the
active-variable index set. -/
theorem joint_names_active_indexes_witness :
    ("joint_a" ∈ computeJointNames exampleGroup.jointModels "base" ↔
      ∃ jm ∈ exampleGroup.jointModels, jm.name = "joint_a" ∧
        jm.name ≠ "base" ∧ jm.type ≠ JointType.Unknown ∧
        jm.type ≠ JointType.Fixed) ∧
    (0 ∈ get_active_variable_indexes exampleModel exampleGroup "base" ↔
      ∃ jm, exampleModel.joints.get? 0 = some jm ∧
        jm ∈ exampleGroup.jointModels ∧ jm.name ≠ "base" ∧
        jm.type ≠ JointType.Unknown ∧ jm.type ≠ JointType.Fixed) :=
  joint_names_active_indexes_characterization
    exampleGroup.jointModels "base" "joint_a" exampleModel exampleGroup 0

/-- C9 witness: the delegation equalities at a concrete state, pose, seed
and outputs. -/
theorem overloads_delegate_to_full_search_witness :
    searchPositionIK_pose exampleState examplePose [0, 0] 1 [] 1 ⟨⟩ =
      searchPositionIK exampleState [examplePose] [0, 0] 1 [] [] none
        none 1 ⟨⟩ none ∧
    searchPositionIK_poseLimits exampleState examplePose [0, 0] 1 [2]
        [] 1 ⟨⟩ =
      searchPositionIK exampleState [examplePose] [0, 0] 1 [2] [] none
        none 1 ⟨⟩ none ∧
    searchPositionIK_poseCallback exampleState examplePose [0, 0] 1 []
        none 1 ⟨⟩ =
      searchPositionIK exampleState [examplePose] [0, 0] 1 [] [] none
        none 1 ⟨⟩ none ∧
    searchPositionIK_poseLimitsCallback exampleState examplePose [0, 0]
        1 [2] [] none 1 ⟨⟩ =
      searchPositionIK exampleState [examplePose] [0, 0] 1 [2] [] none
        none 1 ⟨⟩ none ∧
    searchPositionIK_noCostFn exampleState [examplePose] [0, 0] 1 [2]
        [] none 1 ⟨⟩ none =
      searchPositionIK exampleState [examplePose] [0, 0] 1 [2] [] none
        none 1 ⟨⟩ none :=
  overloads_delegate_to_full_search exampleState examplePose
    [examplePose] [0, 0] 1 [2] [] none 1 ⟨⟩ none

/-- C10 witness: the two single-shot queries at concrete inputs. -/
theorem position_fk_ik_unsupported_witness :
    getPositionFK exampleState ["tip"] [0, 0] [examplePose] =
      (false, [examplePose]) ∧
    getPositionIK exampleState examplePose [0, 0] [3] 1 ⟨⟩ =
      (false, [3], 1) :=
  position_fk_ik_unsupported exampleState ["tip"] [0, 0] [examplePose]
    examplePose [0, 0] [3] 1 ⟨⟩

end GdIk
